import Mathlib

/-!
Verification of the retrieval-and-fallback core of the prison-visit
assistant (PrisonPal).

Shallow embedding of `src/src/rag_engine.py`, `src/src/web_search.py`
and `src/src/config.py`.  The opaque capabilities (embedding,
similarity search, text generation, network fetch) are parameters: a
`retrieve` function standing for
`retriever.get_relevant_documents` (which may raise, modelled with
`Except`), a `gen` function standing for the prompt-template plus
chat-model chain, and a list of per-attempt network outcomes standing
for the successive results of `requests.get` in `_fetch_page`.

The engine state tracks the Qdrant collection (existence and chunk
contents) and whether `self.vectorstore` is set.  Query handling is
instrumented with the list of external-fetch invocations and the list
of index operations it performs, so that frame claims ("never invokes
the fetcher", "read-only on the index") are directly inspectable.
-/

namespace PrisonPal

/-- A retrieval unit: langchain document chunk (only its text matters here). -/
structure Chunk where
  page_content : String
deriving DecidableEq, Repr

/-- The closed query classification used by `process_query`. -/
inductive Topic
  | dress_code
  | id
  | general
deriving DecidableEq, Repr

/-- Python `str.lower()` (ASCII-relevant part). -/
def pyLower (s : String) : String := String.mk (s.toList.map Char.toLower)

/-- `needleChars` occurs as a leading segment of `hayChars`. -/
def charsLeading : List Char → List Char → Bool
  | [], _ => true
  | _ :: _, [] => false
  | a :: as, b :: bs => a == b && charsLeading as bs

/-- `needleChars` occurs contiguously somewhere in `hayChars`. -/
def charsSub (needle : List Char) : List Char → Bool
  | [] => charsLeading needle []
  | b :: bs => charsLeading needle (b :: bs) || charsSub needle bs

/-- Python `needle in hay` on strings: substring containment. -/
def pyContains (hay needle : String) : Bool :=
  charsSub needle.toList hay.toList

/-- The query-type branching of `RAGEngine.process_query`
(rag_engine.py lines 139-143): `query_type = 'general'`, overwritten to
`dress_code` when the lowercased query contains `dress` or `wear`, else
to `id` when it contains `id` or `identification`. -/
def classify_query (query : String) : Topic :=
  let q := pyLower query
  if pyContains q "dress" || pyContains q "wear" then Topic.dress_code
  else if pyContains q "id" || pyContains q "identification" then Topic.id
  else Topic.general

/-- config.py: the fixed collection name. -/
def COLLECTION_NAME : String := "prison_visitor_assistant"

/-- config.py defines no `PDF_PATHS` attribute, although
`RAGEngine.load_all_documents` reads `config.PDF_PATHS`; `none` models
the absent module attribute (accessing it raises `AttributeError`). -/
def config_PDF_PATHS : Option (List (String × String)) := none

/-- State of the engine's index backend and client:
whether the named collection exists, the chunks it holds (empty when it
does not exist), and whether `self.vectorstore` is set (non-None). -/
structure EngineState where
  collectionExists : Bool
  chunks : List Chunk
  vectorstore : Bool
deriving DecidableEq, Repr

/-- Index operations the engine can issue against the backend. -/
inductive IndexOp
  | ensureCollection
  | deleteCollection
  | insertChunks (docs : List Chunk)
deriving DecidableEq, Repr

/-- Does an index operation insert, modify or delete chunks?
`ensureCollection` (a `create_collection` whose "already exists"
failure is swallowed) never touches existing chunks and creates an
empty collection at most. -/
def mutatesChunks : IndexOp → Bool
  | .ensureCollection => false
  | .deleteCollection => true
  | .insertChunks _ => true

/-- `RAGEngine.init_vectorstore`: `create_collection` with the
"already exists" error swallowed (so the collection and its chunks
survive when present, and an empty collection appears when absent),
then `self.vectorstore` is set. -/
def init_vectorstore (s : EngineState) : EngineState :=
  { collectionExists := true
    chunks := if s.collectionExists then s.chunks else []
    vectorstore := true }

/-- Qdrant `delete_collection`: errors when the collection is absent. -/
def delete_collection (s : EngineState) : Except String EngineState :=
  if s.collectionExists then
    Except.ok { s with collectionExists := false, chunks := [] }
  else
    Except.error "Collection not found"

/-- `RAGEngine.clear_vectorstore` (rag_engine.py lines 204-208):
delete the collection only if `collection_exists`, then set
`self.vectorstore = None`. -/
def clear_vectorstore (s : EngineState) : Except String EngineState :=
  if s.collectionExists then
    match delete_collection s with
    | Except.ok t => Except.ok { t with vectorstore := false }
    | Except.error e => Except.error e
  else
    Except.ok { s with vectorstore := false }

/-- `RAGEngine.add_documents`: lazily init the vectorstore, then append
the chunks to the collection. -/
def add_documents (s : EngineState) (docs : List Chunk) : EngineState :=
  let s1 := if s.vectorstore then s else init_vectorstore s
  { s1 with chunks := s1.chunks ++ docs }

/-- `RAGEngine.load_all_documents` (rag_engine.py lines 86-98):
`clear_vectorstore`, `init_vectorstore`, then iterate over
`config.PDF_PATHS.items()`, processing and adding each document inside
a per-document `try/except` that logs and continues.  Reading
`config.PDF_PATHS` when the attribute is absent raises
`AttributeError` before the loop body runs.  `processDoc` stands for
`process_document` (PDF load + split), which may fail per document. -/
def load_all_documents (pdfPaths : Option (List (String × String)))
    (processDoc : String → Except String (List Chunk))
    (s : EngineState) : Except String EngineState :=
  match clear_vectorstore s with
  | Except.error e => Except.error e
  | Except.ok s1 =>
    let s2 := init_vectorstore s1
    match pdfPaths with
    | none => Except.error "AttributeError: module src.config has no attribute PDF_PATHS"
    | some paths =>
      Except.ok (paths.foldl
        (fun st p =>
          match processDoc p.2 with
          | Except.ok docs => add_documents st docs
          | Except.error _ => st)
        s2)

/-- The fixed apology returned by `process_query` when nothing clears
the similarity threshold (rag_engine.py line 202). -/
def apology_answer : String :=
  "I apologize, but I couldn\x27t find specific information to answer your question in the available documents. Please contact the prison directly for more information."

/-- `if not self.vectorstore: self.init_vectorstore()` at the top of
`process_query`. -/
def ensure_vs (s : EngineState) : EngineState :=
  if s.vectorstore then s else init_vectorstore s

/-- Result of one `process_query` call, instrumented with the URLs the
external fetcher was invoked on and the index operations issued. -/
structure QueryOutcome where
  answer : String
  evidence : List Chunk
  state : EngineState
  fetchCalls : List String
  indexOps : List IndexOp
deriving DecidableEq, Repr

/-- `RAGEngine.process_query` (rag_engine.py lines 112-202).
`retrieve` stands for `retriever.get_relevant_documents` on the
similarity-score-threshold retriever (k = 5, threshold 0.6); it may
raise, and `process_query` does not catch it.  `gen` stands for the
prompt-template selection plus `create_retrieval_chain` invocation of
the chat model.  When `relevant_docs` is non-empty the classified
query type picks the template and `(answer, relevant_docs)` is
returned; when it is empty the fixed apology with `[]` is returned.
No call into `GovUKSearcher` occurs on any path. -/
def process_query (gen : Topic → List Chunk → String → String)
    (retrieve : EngineState → String → Except String (List Chunk))
    (s : EngineState) (query : String) : Except String QueryOutcome :=
  let s1 := ensure_vs s
  let ops1 : List IndexOp := if s.vectorstore then [] else [IndexOp.ensureCollection]
  match retrieve s1 query with
  | Except.error e => Except.error e
  | Except.ok relevant_docs =>
    match relevant_docs with
    | [] =>
      Except.ok { answer := apology_answer, evidence := [], state := s1
                  fetchCalls := [], indexOps := ops1 }
    | _ :: _ =>
      let query_type := classify_query query
      Except.ok { answer := gen query_type relevant_docs query
                  evidence := relevant_docs
                  state := s1, fetchCalls := [], indexOps := ops1 }

/-- Outcome of one HTTP GET attempt inside `_fetch_page`:
either a 2xx response with body text, or a `requests.RequestException`
(connection error, timeout, or the non-2xx raised by
`raise_for_status`). -/
inductive FetchAttempt
  | ok2xx (text : String)
  | requestError (msg : String)
deriving DecidableEq, Repr

/-- The body of `GovUKSearcher._fetch_page` for a single attempt
(web_search.py lines 31-37): `requests.get(url, timeout=10)` /
`raise_for_status` inside a `try`; a `RequestException` is caught,
logged and turned into a normal `None` return.  The body itself never
raises. -/
def fetch_attempt_body : FetchAttempt → Except String (Option String)
  | .ok2xx t => Except.ok (some t)
  | .requestError _ => Except.ok none

/-- The tenacity `@retry(wait=wait_exponential(multiplier=1, min=4,
max=10), stop=stop_after_attempt(3))` decorator: re-invokes the body
only when the body raises, up to `maxAttempts` attempts, re-raising
after the last; a normal return (including `None`) ends the call at
once.  The list supplies the outcome of each successive attempt, and
the returned `Nat` counts the attempts actually made. -/
def tenacity_call (body : FetchAttempt → Except String (Option String)) :
    Nat → List FetchAttempt → Except String (Option String) × Nat
  | _, [] => (Except.error "RetryError", 0)
  | maxAttempts, a :: rest =>
    match body a with
    | Except.ok v => (Except.ok v, 1)
    | Except.error e =>
      if maxAttempts ≤ 1 then (Except.error e, 1)
      else
        let r := tenacity_call body (maxAttempts - 1) rest
        (r.1, r.2 + 1)

/-- `GovUKSearcher._fetch_page` (web_search.py lines 19-37): the
attempt body under the tenacity decorator with
`stop_after_attempt(3)`. -/
def fetch_page (attempts : List FetchAttempt) : Except String (Option String) × Nat :=
  tenacity_call fetch_attempt_body 3 attempts

/-! ## Helper lemmas -/

/-- Any successful `process_query` outcome has the shape built by the
source: state is the (possibly lazily initialised) vectorstore state,
no external fetch is ever recorded, and the only index operation is the
lazy `ensureCollection` when `self.vectorstore` was unset. -/
theorem process_query_ok_shape (gen : Topic → List Chunk → String → String)
    (retrieve : EngineState → String → Except String (List Chunk))
    (s : EngineState) (query : String) (o : QueryOutcome)
    (h : process_query gen retrieve s query = Except.ok o) :
    o.state = ensure_vs s ∧ o.fetchCalls = [] ∧
    o.indexOps = (if s.vectorstore then ([] : List IndexOp) else [IndexOp.ensureCollection]) := by
  revert h
  simp only [process_query]
  cases retrieve (ensure_vs s) query with
  | error e => intro h; exact Except.noConfusion h
  | ok docs =>
    cases docs with
    | nil => intro h; injection h with h; subst h; exact ⟨rfl, rfl, rfl⟩
    | cons d ds => intro h; injection h with h; subst h; exact ⟨rfl, rfl, rfl⟩

/-- Lazily initialising the vectorstore preserves the collection's
chunks, given the backend invariant that an absent collection holds no
chunks. -/
theorem ensure_vs_chunks (s : EngineState)
    (hwf : s.collectionExists = false → s.chunks = []) :
    (ensure_vs s).chunks = s.chunks := by
  cases hv : s.vectorstore with
  | true => simp [ensure_vs, hv]
  | false =>
    cases hc : s.collectionExists with
    | true => simp [ensure_vs, init_vectorstore, hv, hc]
    | false => simp [ensure_vs, init_vectorstore, hv, hc, hwf hc]

/-! ## Claim theorems -/

/-- C1 (counterexample): with an empty similarity result and the query
"what id do i need" (classified Topic.id), `process_query` does not
invoke the External Reference Fetcher at all — it returns the apology
with empty evidence and records zero fetch calls, refuting "invokes
the External Reference Fetcher exactly once". -/
theorem C1_counterexample :
    classify_query "what id do i need" = Topic.id ∧
    process_query (fun _ _ _ => "GEN") (fun _ _ => Except.ok []) (EngineState.mk true [] true)
        "what id do i need"
      = Except.ok (QueryOutcome.mk apology_answer [] (EngineState.mk true [] true) [] []) ∧
    ¬ (∃ o : QueryOutcome,
        process_query (fun _ _ _ => "GEN") (fun _ _ => Except.ok []) (EngineState.mk true [] true)
            "what id do i need"
          = Except.ok o ∧ o.fetchCalls.length = 1) := by
  refine ⟨by decide, rfl, ?_⟩
  rintro ⟨o, ho, hlen⟩
  have h2 : Except.ok (QueryOutcome.mk apology_answer [] (EngineState.mk true [] true) [] [])
      = (Except.ok o : Except String QueryOutcome) := ho
  injection h2 with h2
  subst h2
  simp at hlen

/-- C1 (amended): for every query whose similarity search returns no
chunk at or above the threshold, whatever its classified Topic, the
query operation invokes the External Reference Fetcher zero times and
returns the fixed apology string with empty evidence. -/
theorem C1_empty_retrieval_no_fetch (gen : Topic → List Chunk → String → String)
    (retrieve : EngineState → String → Except String (List Chunk))
    (s : EngineState) (query : String)
    (h : retrieve (ensure_vs s) query = Except.ok []) :
    ∃ o : QueryOutcome, process_query gen retrieve s query = Except.ok o ∧
      o.answer = apology_answer ∧ o.evidence = [] ∧ o.fetchCalls = [] := by
  have heq : process_query gen retrieve s query =
      Except.ok (QueryOutcome.mk apology_answer [] (ensure_vs s) []
        (if s.vectorstore then [] else [IndexOp.ensureCollection])) := by
    simp only [process_query, h]
  exact ⟨_, heq, rfl, rfl, rfl⟩

/-- C1 witness: the amended theorem evaluated at a concrete id-topic
query on an engine whose retrieval returns nothing. -/
theorem C1_witness :
    ∃ o : QueryOutcome,
      process_query (fun _ _ _ => "GEN") (fun _ _ => Except.ok []) (EngineState.mk true [] true)
          "what id do i need" = Except.ok o ∧
        o.answer = apology_answer ∧ o.evidence = [] ∧ o.fetchCalls = [] :=
  C1_empty_retrieval_no_fetch (fun _ _ _ => "GEN") (fun _ _ => Except.ok [])
    (EngineState.mk true [] true) "what id do i need" rfl

/-- C2 (counterexample): when the similarity search raises (index or
network failure), `process_query` propagates the error to its caller
instead of treating it as an empty result set — there is no successful
outcome at all, refuting "caught inside the query operation". -/
theorem C2_counterexample :
    process_query (fun _ _ _ => "GEN") (fun _ _ => Except.error "ConnectionError")
        (EngineState.mk true [] true) "hello"
      = Except.error "ConnectionError" ∧
    ¬ (∃ o : QueryOutcome,
        process_query (fun _ _ _ => "GEN") (fun _ _ => Except.error "ConnectionError")
            (EngineState.mk true [] true) "hello"
          = Except.ok o) := by
  refine ⟨rfl, ?_⟩
  rintro ⟨o, ho⟩
  have h2 : (Except.error "ConnectionError" : Except String QueryOutcome) = Except.ok o := ho
  exact Except.noConfusion h2

/-- C2 (amended): any failure raised during the local similarity
search propagates out of the query operation unchanged; it is not
converted into an empty result set and the fallback path is not
taken. -/
theorem C2_retrieval_error_propagates (gen : Topic → List Chunk → String → String)
    (retrieve : EngineState → String → Except String (List Chunk))
    (s : EngineState) (query : String) (e : String)
    (h : retrieve (ensure_vs s) query = Except.error e) :
    process_query gen retrieve s query = Except.error e := by
  simp only [process_query, h]

/-- C2 witness: the amended theorem evaluated at a concrete failing
retriever. -/
theorem C2_witness :
    process_query (fun _ _ _ => "GEN") (fun _ _ => Except.error "ConnectionError")
        (EngineState.mk true [] true) "hello"
      = Except.error "ConnectionError" :=
  C2_retrieval_error_propagates (fun _ _ _ => "GEN") (fun _ _ => Except.error "ConnectionError")
    (EngineState.mk true [] true) "hello" "ConnectionError" rfl

/-- C3: the attempt body of the page fetch catches the request
exception internally and returns None, so the retry decorator (which
re-invokes only on an exception) makes exactly one attempt: even when
the first GET fails and the next two would succeed, the fetcher
surfaces the unavailable signal after a single attempt instead of
retrying up to 3 times. -/
theorem C3_no_retry_single_attempt :
    fetch_page
        [FetchAttempt.requestError "ConnectTimeout",
         FetchAttempt.ok2xx "page text", FetchAttempt.ok2xx "page text"]
      = (Except.ok none, 1) := rfl

/-- C4: whenever the similarity search returns a non-empty chunk list,
`process_query` returns exactly those chunks as evidence, the answer is
the generated text for the classified topic, and the External
Reference Fetcher is never invoked. -/
theorem C4_local_hit_no_fetch (gen : Topic → List Chunk → String → String)
    (retrieve : EngineState → String → Except String (List Chunk))
    (s : EngineState) (query : String) (docs : List Chunk)
    (hne : docs ≠ []) (h : retrieve (ensure_vs s) query = Except.ok docs) :
    ∃ o : QueryOutcome, process_query gen retrieve s query = Except.ok o ∧
      o.evidence = docs ∧ o.evidence ≠ [] ∧ o.fetchCalls = [] ∧
      o.answer = gen (classify_query query) docs query := by
  obtain ⟨d, ds, rfl⟩ : ∃ d ds, docs = d :: ds := by
    cases docs with
    | nil => exact absurd rfl hne
    | cons d ds => exact ⟨d, ds, rfl⟩
  have heq : process_query gen retrieve s query =
      Except.ok (QueryOutcome.mk (gen (classify_query query) (d :: ds) query) (d :: ds)
        (ensure_vs s) []
        (if s.vectorstore then [] else [IndexOp.ensureCollection])) := by
    simp only [process_query, h]
  exact ⟨_, heq, rfl, List.cons_ne_nil d ds, rfl, rfl⟩

/-- C4 witness: the theorem evaluated at a concrete query whose
retrieval returns one above-threshold chunk. -/
theorem C4_witness :
    ∃ o : QueryOutcome,
      process_query (fun _ _ _ => "GEN") (fun _ _ => Except.ok [Chunk.mk "chunk text"])
          (EngineState.mk true [Chunk.mk "chunk text"] true) "what id do i need"
        = Except.ok o ∧
      o.evidence = [Chunk.mk "chunk text"] ∧ o.evidence ≠ [] ∧ o.fetchCalls = [] ∧
      o.answer = "GEN" :=
  C4_local_hit_no_fetch (fun _ _ _ => "GEN") (fun _ _ => Except.ok [Chunk.mk "chunk text"])
    (EngineState.mk true [Chunk.mk "chunk text"] true) "what id do i need"
    [Chunk.mk "chunk text"] (List.cons_ne_nil _ _) rfl

/-- C5: when the similarity search returns no chunk at or above the
threshold and the query classifies as Topic.general, the Fetcher is
never invoked and the result is exactly the fixed apology string with
empty evidence. -/
theorem C5_general_no_fetch_apology (gen : Topic → List Chunk → String → String)
    (retrieve : EngineState → String → Except String (List Chunk))
    (s : EngineState) (query : String)
    (hempty : retrieve (ensure_vs s) query = Except.ok [])
    (_hgen : classify_query query = Topic.general) :
    ∃ o : QueryOutcome, process_query gen retrieve s query = Except.ok o ∧
      o.answer = apology_answer ∧ o.evidence = [] ∧ o.fetchCalls = [] := by
  have heq : process_query gen retrieve s query =
      Except.ok (QueryOutcome.mk apology_answer [] (ensure_vs s) []
        (if s.vectorstore then [] else [IndexOp.ensureCollection])) := by
    simp only [process_query, hempty]
  exact ⟨_, heq, rfl, rfl, rfl⟩

/-- C5 witness: the theorem evaluated at a concrete general-topic
query on an engine whose retrieval returns nothing. -/
theorem C5_witness :
    ∃ o : QueryOutcome,
      process_query (fun _ _ _ => "GEN") (fun _ _ => Except.ok []) (EngineState.mk true [] true)
          "what is the weather today?" = Except.ok o ∧
        o.answer = apology_answer ∧ o.evidence = [] ∧ o.fetchCalls = [] :=
  C5_general_no_fetch_apology (fun _ _ _ => "GEN") (fun _ _ => Except.ok [])
    (EngineState.mk true [] true) "what is the weather today?" rfl (by decide)

/-- C6: `load_all_documents` evaluated on the repository's actual
configuration.  The first conjunct shows that on the real config —
whose module defines no PDF_PATHS attribute — the call clears the
collection, then raises AttributeError before ingesting anything, so
no document is ever loaded (contradicting its own docstring "Load all
configured PDF documents").  The second conjunct shows the intended
continue-on-error structure is otherwise present: with a three-entry
document table whose second entry fails extraction, the first and
third documents are still ingested after the full reset, and the old
contents are gone. -/
theorem C6_load_all_missing_config :
    (load_all_documents config_PDF_PATHS (fun _ => Except.ok [Chunk.mk "pdf chunk"])
        (EngineState.mk true [Chunk.mk "old"] true)
      = Except.error "AttributeError: module src.config has no attribute PDF_PATHS") ∧
    (load_all_documents (some [("visit", "a.pdf"), ("id_doc", "b.pdf"), ("dress", "c.pdf")])
        (fun p => if p = "b.pdf" then Except.error "extraction failed"
                  else Except.ok [Chunk.mk p])
        (EngineState.mk true [Chunk.mk "old"] true)
      = Except.ok (EngineState.mk true [Chunk.mk "a.pdf", Chunk.mk "c.pdf"] true)) := by
  exact ⟨rfl, rfl⟩

/-- C7: `clear_vectorstore` never errors: when the collection is
present it deletes it, when absent it only resets the vectorstore
handle (a no-op on the index), and running it again on the resulting
state succeeds and changes nothing — clear twice in succession never
raises. -/
theorem C7_clear_idempotent (s : EngineState) :
    (∃ t : EngineState, clear_vectorstore s = Except.ok t ∧ t.collectionExists = false ∧
      t.vectorstore = false ∧ clear_vectorstore t = Except.ok t) ∧
    (s.collectionExists = false →
      clear_vectorstore s = Except.ok { s with vectorstore := false }) := by
  constructor
  · cases h : s.collectionExists with
    | true =>
      refine ⟨EngineState.mk false [] false, ?_, rfl, rfl, ?_⟩
      · simp [clear_vectorstore, delete_collection, h]
      · simp [clear_vectorstore]
    | false =>
      refine ⟨{ s with vectorstore := false }, ?_, h, rfl, ?_⟩
      · simp [clear_vectorstore, h]
      · simp [clear_vectorstore, h]
  · intro h
    simp [clear_vectorstore, h]

/-- C7 witness: the theorem applied to a concrete engine state with
the collection present, and the inner no-op implication discharged on
the state it produces. -/
theorem C7_witness :
    clear_vectorstore (EngineState.mk false [] false)
      = Except.ok (EngineState.mk false [] false) :=
  (C7_clear_idempotent (EngineState.mk false [] false)).2 rfl

/-- C8: the query path is read-only on the index: for any successful
`process_query` run, the collection's chunks after the call are
exactly the chunks before it, every index operation it issued is
chunk-preserving (the only possible one is the lazy idempotent
collection ensure), and no external fetch happens either.  The
hypothesis is the backend invariant that an absent collection holds no
chunks. -/
theorem C8_query_readonly (gen : Topic → List Chunk → String → String)
    (retrieve : EngineState → String → Except String (List Chunk))
    (s : EngineState) (query : String) (o : QueryOutcome)
    (hwf : s.collectionExists = false → s.chunks = [])
    (h : process_query gen retrieve s query = Except.ok o) :
    o.state.chunks = s.chunks ∧ (∀ op ∈ o.indexOps, mutatesChunks op = false) ∧
    o.fetchCalls = [] := by
  obtain ⟨hstate, hfetch, hops⟩ := process_query_ok_shape gen retrieve s query o h
  refine ⟨?_, ?_, hfetch⟩
  · rw [hstate]
    exact ensure_vs_chunks s hwf
  · intro op hop
    rw [hops] at hop
    by_cases hv : s.vectorstore = true
    · simp [hv] at hop
    · simp [hv] at hop
      subst hop
      rfl

/-- C8 witness: the theorem evaluated at a concrete successful query
on a populated collection. -/
theorem C8_witness :
    (QueryOutcome.mk "GEN" [Chunk.mk "c"] (EngineState.mk true [Chunk.mk "c"] true) [] []).state.chunks
        = (EngineState.mk true [Chunk.mk "c"] true).chunks ∧
    (∀ op ∈ (QueryOutcome.mk "GEN" [Chunk.mk "c"] (EngineState.mk true [Chunk.mk "c"] true) [] []).indexOps,
        mutatesChunks op = false) ∧
    (QueryOutcome.mk "GEN" [Chunk.mk "c"] (EngineState.mk true [Chunk.mk "c"] true) [] []).fetchCalls = [] :=
  C8_query_readonly (fun _ _ _ => "GEN") (fun _ _ => Except.ok [Chunk.mk "c"])
    (EngineState.mk true [Chunk.mk "c"] true) "hello"
    (QueryOutcome.mk "GEN" [Chunk.mk "c"] (EngineState.mk true [Chunk.mk "c"] true) [] [])
    (fun hfalse => Bool.noConfusion hfalse) rfl

/-- C9: topic classification is total and order-sensitive with
dress_code priority: it equals the rule table "dress_code when the
lowercased query contains dress or wear, else id when it contains id
or identification, else general"; any query containing dress (even one
also containing id) classifies as dress_code; and the id rule fires on
the substring anywhere, including inside the unrelated word
holiday. -/
theorem C9_classification_rule (q : String) :
    (classify_query q =
      (if pyContains (pyLower q) "dress" || pyContains (pyLower q) "wear" then Topic.dress_code
       else if pyContains (pyLower q) "id" || pyContains (pyLower q) "identification" then Topic.id
       else Topic.general)) ∧
    (pyContains (pyLower q) "dress" = true → classify_query q = Topic.dress_code) ∧
    classify_query "Dress code and ID rules" = Topic.dress_code ∧
    classify_query "holiday visit times" = Topic.id := by
  refine ⟨rfl, ?_, by decide, by decide⟩
  intro h
  simp [classify_query, h]

/-- C9 witness: the rule applied to a concrete query containing both
the dress and id substrings, with the containment hypothesis
discharged by evaluation. -/
theorem C9_witness :
    pyContains (pyLower "id and dress rules") "dress" = true ∧
    classify_query "id and dress rules" = Topic.dress_code :=
  ⟨by decide, (C9_classification_rule "id and dress rules").2.1 (by decide)⟩

/-- C10 (counterexample): the forward-and-backward claim "evidence is
empty iff the answer is the apology string" fails, because the
generated answer is opaque text: a run whose retrieval succeeds with a
chunk but whose generation happens to produce exactly the apology
string returns non-empty evidence together with the apology answer. -/
theorem C10_counterexample :
    ∃ o : QueryOutcome,
      process_query (fun _ _ _ => apology_answer) (fun _ _ => Except.ok [Chunk.mk "c"])
          (EngineState.mk true [Chunk.mk "c"] true) "hello" = Except.ok o ∧
      ¬ (o.evidence = [] ↔ o.answer = apology_answer) := by
  refine ⟨QueryOutcome.mk apology_answer [Chunk.mk "c"] (EngineState.mk true [Chunk.mk "c"] true) [] [],
    rfl, ?_⟩
  intro hiff
  simpa using hiff.mpr rfl

/-- C10 (amended): one direction holds unconditionally: a successful
query with empty evidence always answers with exactly the apology
string, and contrapositively every non-apology answer carries at least
one retrieved chunk.  The converse (non-empty evidence implies a
non-apology answer) depends on the opaque generated text and is not
guaranteed by the code. -/
theorem C10_empty_evidence_apology (gen : Topic → List Chunk → String → String)
    (retrieve : EngineState → String → Except String (List Chunk))
    (s : EngineState) (query : String) (o : QueryOutcome)
    (h : process_query gen retrieve s query = Except.ok o) :
    (o.evidence = [] → o.answer = apology_answer) ∧
    (o.answer ≠ apology_answer → o.evidence ≠ []) := by
  revert h
  simp only [process_query]
  cases retrieve (ensure_vs s) query with
  | error e => intro h; exact Except.noConfusion h
  | ok docs =>
    cases docs with
    | nil =>
      intro h; injection h with h; subst h
      exact ⟨fun _ => rfl, fun hne => absurd rfl hne⟩
    | cons d ds =>
      intro h; injection h with h; subst h
      exact ⟨fun he => absurd he (List.cons_ne_nil d ds), fun _ => List.cons_ne_nil d ds⟩

/-- C10 witness: the amended theorem evaluated at a concrete query
with empty retrieval, its empty-evidence implication discharged. -/
theorem C10_witness :
    (QueryOutcome.mk apology_answer [] (EngineState.mk true [] true) [] []).answer = apology_answer :=
  (C10_empty_evidence_apology (fun _ _ _ => "GEN") (fun _ _ => Except.ok [])
    (EngineState.mk true [] true) "hello"
    (QueryOutcome.mk apology_answer [] (EngineState.mk true [] true) [] []) rfl).1 rfl

end PrisonPal
